import Mathlib

/-!
Shallow embedding of the Excalidraw diagram quality analyzer
(`skills/excalidraw/scripts/analyzer.py`, class `VisualAnalyzer`).

Elements are dictionaries in the source; here they are a structure whose
numeric fields are rationals (the source works on JSON numbers), with
`fontSize` optional (`e.get('fontSize', 20)`) and bindings modelled by their
truthiness (`arrow.get('startBinding')`).  Issue / warning / suggestion
strings carry fixed text plus interpolated counts, so they are modelled as
an inductive type whose constructors carry those counts; the substring
tests of `_generate_suggestions` ('Small text' in issue, ...) become exact
constructor tests, which is faithful because each probed substring occurs
in exactly one of the fixed message templates.  `math.sqrt` is modelled by
`Real.sqrt`, so the coefficient of variation lands in `ℝ` and the spacing
check compares it to 3/10 classically.  The mutable instance fields
(`self.issues`, `self.warnings`, `self.score`) become an explicit
`AnalyzerState` threaded through `analyzeRun`, which resets them on entry
exactly as `analyze` does.
-/

namespace VisualAnalyzer

/-- Direction tag of a gap returned by `_calculate_gap`. -/
inductive Dir where
  | horizontal
  | vertical
deriving DecidableEq, Repr

/-- One diagram element (a JSON dict in the source).  Geometry fields use the
source's default of 0 when absent; `fontSize` keeps its absence observable
because `_check_text_readability` defaults it to 20 at the use site. -/
structure Element where
  type : String := ""
  x : ℚ := 0
  y : ℚ := 0
  width : ℚ := 0
  height : ℚ := 0
  fontSize : Option ℚ := none
  startBinding : Bool := false
  endBinding : Bool := false
deriving DecidableEq, Repr

/-- Issue / warning messages appended by the six checks, abstracting the
f-string templates of the source; constructors carry the interpolated
counts. -/
inductive Msg where
  | emptyDiagram
  | smallText (count : Nat)
  | inconsistentSpacing (d : Dir)
  | fewAligned
  | overlapping (pairs : Nat)
  | disconnectedArrows (count : Nat)
  | similarSize
deriving DecidableEq, Repr

/-- The canned remediation texts of `_generate_suggestions`. -/
inductive Suggestion where
  | addElements
  | increaseFontSize
  | useConsistentSpacing
  | alignElements
  | separateOverlapping
  | connectArrows
  | useSizeHierarchy
  | looksGood
deriving DecidableEq, Repr

/-- The dict returned by `analyze`.  The empty-diagram branch returns a dict
without the `element_count` and `quality_level` keys, hence those fields are
optional. -/
structure Report where
  score : Int
  grade : String
  issues : List Msg
  warnings : List Msg
  suggestions : List Suggestion
  element_count : Option Nat
  quality_level : Option String
deriving DecidableEq, Repr

/-- The mutable instance fields of the class, reset at the top of `analyze`. -/
structure AnalyzerState where
  issues : List Msg
  warnings : List Msg
  score : Int
deriving DecidableEq, Repr

/-- The state `__init__` produces. -/
def initState : AnalyzerState := ⟨[], [], 100⟩

/-- Test from the source: `e.get('type') in ['rectangle', 'ellipse', 'diamond']`. -/
def isShape (e : Element) : Bool :=
  e.type == "rectangle" || e.type == "ellipse" || e.type == "diamond"

/-- All unordered pairs in source order:
`for i, a in enumerate(l): for b in l[i+1:]`. -/
def pairsUpper : List α → List (α × α)
  | [] => []
  | x :: xs => xs.map (fun y => (x, y)) ++ pairsUpper xs

/-- Source `_elements_overlap`: axis-aligned bounding-box test; `<=` makes touching
elements count as not overlapping. -/
def elements_overlap (e1 e2 : Element) : Bool :=
  !(decide (e1.x + e1.width ≤ e2.x) || decide (e2.x + e2.width ≤ e1.x) ||
    decide (e1.y + e1.height ≤ e2.y) || decide (e2.y + e2.height ≤ e1.y))

/-- Source `_calculate_gap`: the gap between two elements, when they are aligned on
an axis and separated along it.  Note the source falls through from the
horizontal block to the vertical test when neither horizontal separation
holds. -/
def calculate_gap (e1 e2 : Element) : Option (Dir × ℚ) :=
  let x1 := e1.x; let y1 := e1.y; let w1 := e1.width; let h1 := e1.height
  let x2 := e2.x; let y2 := e2.y; let w2 := e2.width; let h2 := e2.height
  if |y1 - y2| < min h1 h2 * (1/2) ∧ x1 + w1 < x2 then
    some (Dir.horizontal, x2 - (x1 + w1))
  else if |y1 - y2| < min h1 h2 * (1/2) ∧ x2 + w2 < x1 then
    some (Dir.horizontal, x1 - (x2 + w2))
  else if |x1 - x2| < min w1 w2 * (1/2) ∧ y1 + h1 < y2 then
    some (Dir.vertical, y2 - (y1 + h1))
  else if |x1 - x2| < min w1 w2 * (1/2) ∧ y2 + h2 < y1 then
    some (Dir.vertical, y1 - (y2 + h2))
  else
    none

/-- Source `_calculate_variance`: the coefficient of variation `std / mean`, 0 when
there are fewer than two values or the mean is 0. -/
noncomputable def calculate_variance (values : List ℚ) : ℝ :=
  if values.length < 2 then 0
  else
    let mean : ℚ := values.sum / values.length
    if mean = 0 then 0
    else
      let variance : ℚ := (values.map (fun x => (x - mean) ^ 2)).sum / values.length
      Real.sqrt (variance : ℝ) / (mean : ℝ)

/-- Source `_count_near_values`: the number of unordered pairs within `threshold`
of each other. -/
def count_near_values (values : List ℚ) (threshold : ℚ) : Nat :=
  if values.length < 2 then 0
  else ((pairsUpper values).filter (fun p => decide (|p.1 - p.2| ≤ threshold))).length

/-- Source `_calculate_grade`. -/
def calculate_grade (score : Int) : String :=
  if score ≥ 90 then "A"
  else if score ≥ 80 then "B"
  else if score ≥ 70 then "C"
  else if score ≥ 60 then "D"
  else "F"

/-- Source `_quality_level`. -/
def quality_level (score : Int) : String :=
  if score ≥ 90 then "Excellent"
  else if score ≥ 80 then "Good"
  else if score ≥ 70 then "Fair"
  else if score ≥ 60 then "Poor"
  else "Needs Improvement"

/-- The `small_texts` list collected by `_check_text_readability`
(elements instead of ids; only its length is used). -/
def small_texts (elements : List Element) : List Element :=
  (elements.filter (fun e => e.type == "text")).filter
    (fun t => decide (t.fontSize.getD 20 < 12))

/-- Source `_check_text_readability`: the issues it appends. -/
def check_text_readability (elements : List Element) : List Msg :=
  if small_texts elements = [] then []
  else [Msg.smallText (small_texts elements).length]

/-- The pairwise gaps the spacing check collects over the shapes. -/
def spacing_gaps (elements : List Element) : List (Dir × ℚ) :=
  (pairsUpper (elements.filter isShape)).filterMap (fun p => calculate_gap p.1 p.2)

/-- The `h_gaps` list of `_check_spacing_consistency`. -/
def h_gaps (elements : List Element) : List ℚ :=
  (spacing_gaps elements).filterMap
    (fun g => match g with
      | (Dir.horizontal, d) => some d
      | (Dir.vertical, _) => none)

/-- The `v_gaps` list of `_check_spacing_consistency`. -/
def v_gaps (elements : List Element) : List ℚ :=
  (spacing_gaps elements).filterMap
    (fun g => match g with
      | (Dir.horizontal, _) => none
      | (Dir.vertical, d) => some d)

open Classical in
/-- Source `_check_spacing_consistency`: the warnings it appends. -/
noncomputable def check_spacing_consistency (elements : List Element) : List Msg :=
  if (elements.filter isShape).length < 2 then []
  else
    (if h_gaps elements = [] then []
     else if (3 / 10 : ℝ) < calculate_variance (h_gaps elements) then
       [Msg.inconsistentSpacing Dir.horizontal]
     else []) ++
    (if v_gaps elements = [] then []
     else if (3 / 10 : ℝ) < calculate_variance (v_gaps elements) then
       [Msg.inconsistentSpacing Dir.vertical]
     else [])

/-- Source `_check_alignment`: the warnings it appends. -/
def check_alignment (elements : List Element) : List Msg :=
  let shapes := elements.filter isShape
  if shapes.length < 2 then []
  else
    let left_edges := shapes.map (fun e => e.x)
    let top_edges := shapes.map (fun e => e.y)
    let centers_x := shapes.map (fun e => e.x + e.width / 2)
    let centers_y := shapes.map (fun e => e.y + e.height / 2)
    let aligned_count := count_near_values left_edges 5 + count_near_values top_edges 5 +
      count_near_values centers_x 5 + count_near_values centers_y 5
    if (aligned_count : ℚ) < shapes.length * (3/10) then [Msg.fewAligned] else []

/-- Source `_check_overlaps`: the issues it appends. -/
def check_overlaps (elements : List Element) : List Msg :=
  let shapes := elements.filter isShape
  let ovl := (pairsUpper shapes).filter (fun p => elements_overlap p.1 p.2)
  if ovl = [] then [] else [Msg.overlapping ovl.length]

/-- Source `_check_arrows`: the issues it appends. -/
def check_arrows (elements : List Element) : List Msg :=
  let arrows := elements.filter (fun e => e.type == "arrow")
  if arrows = [] then []
  else
    let disconnected := arrows.filter (fun a => !a.startBinding || !a.endBinding)
    if disconnected = [] then [] else [Msg.disconnectedArrows disconnected.length]

/-- Source `_check_visual_hierarchy`: the warnings it appends. -/
def check_visual_hierarchy (elements : List Element) : List Msg :=
  let shapes := elements.filter isShape
  if shapes.length < 2 then []
  else
    let sizes := shapes.map (fun e => e.width * e.height)
    match sizes with
    | [] => []
    | s :: rest =>
      let max_size := rest.foldl max s
      let min_size := rest.foldl min s
      if 0 < max_size ∧ (19/20 : ℚ) < min_size / max_size then [Msg.similarSize] else []

/-- Source `_generate_suggestions`: the substring probes become constructor tests. -/
def generate_suggestions (issues warnings : List Msg) : List Suggestion :=
  let s :=
    (if issues.any (fun m => match m with | Msg.smallText _ => true | _ => false) then
      [Suggestion.increaseFontSize] else []) ++
    (if warnings.any (fun m => match m with | Msg.inconsistentSpacing _ => true | _ => false) then
      [Suggestion.useConsistentSpacing] else []) ++
    (if warnings.any (fun m => match m with | Msg.fewAligned => true | _ => false) then
      [Suggestion.alignElements] else []) ++
    (if issues.any (fun m => match m with | Msg.overlapping _ => true | _ => false) then
      [Suggestion.separateOverlapping] else []) ++
    (if issues.any (fun m => match m with | Msg.disconnectedArrows _ => true | _ => false) then
      [Suggestion.connectArrows] else []) ++
    (if warnings.any (fun m => match m with | Msg.similarSize => true | _ => false) then
      [Suggestion.useSizeHierarchy] else [])
  if s = [] then [Suggestion.looksGood] else s

/-- Source `analyze`, threading the instance fields explicitly: resets them, then
either short-circuits on an empty element list or runs the six checks (the
issue appenders in run order, the warning appenders in run order), scores,
grades and suggests.  Returns the report together with the instance state
after the call. -/
noncomputable def analyzeRun (st : AnalyzerState) (metadata : List Element) :
    Report × AnalyzerState :=
  let st1 : AnalyzerState := { st with issues := [], warnings := [], score := 100 }
  let elements := metadata
  if elements = [] then
    ({ score := 0, grade := "F", issues := [Msg.emptyDiagram], warnings := [],
       suggestions := [Suggestion.addElements], element_count := none,
       quality_level := none }, st1)
  else
    let issues := check_text_readability elements ++ check_overlaps elements ++
      check_arrows elements
    let warnings := check_spacing_consistency elements ++ check_alignment elements ++
      check_visual_hierarchy elements
    let penalty : Int := (issues.length : Int) * 10 + (warnings.length : Int) * 5
    let score := max 0 (st1.score - penalty)
    ({ score := score, grade := calculate_grade score, issues := issues,
       warnings := warnings, suggestions := generate_suggestions issues warnings,
       element_count := some elements.length,
       quality_level := some (quality_level score) },
     { issues := issues, warnings := warnings, score := score })

/-- The report `analyze` returns. -/
noncomputable def analyze (st : AnalyzerState) (metadata : List Element) : Report :=
  (analyzeRun st metadata).1


/-! Concrete fixtures used by witnesses and counterexamples. -/

/-- A lone rectangle. -/
def soloRect : Element := { type := "rectangle", x := 0, y := 0, width := 10, height := 10 }

/-- Left rectangle of a touching pair. -/
def touchL : Element := { type := "rectangle", x := 0, y := 0, width := 10, height := 10 }

/-- Right rectangle of a touching pair: its left edge equals touchL's right edge. -/
def touchR : Element := { type := "rectangle", x := 10, y := 0, width := 10, height := 10 }

/-- Left rectangle of a horizontally separated pair. -/
def gapL : Element := { type := "rectangle", x := 0, y := 0, width := 10, height := 10 }

/-- Right rectangle of a horizontally separated pair, 10 units away. -/
def gapR : Element := { type := "rectangle", x := 20, y := 0, width := 10, height := 10 }

/-- A text element without an explicit fontSize. -/
def textDefault : Element := { type := "text", x := 0, y := 0, width := 50, height := 20 }

/-- The two overlapping rectangles of the end-to-end example. -/
def rectA : Element := { type := "rectangle", x := 100, y := 100, width := 200, height := 100 }

/-- Second overlapping rectangle of the end-to-end example. -/
def rectB : Element := { type := "rectangle", x := 150, y := 120, width := 200, height := 100 }


/-- First element of a horizontally aligned, x-overlapping pair. -/
def ovlA : Element := { type := "rectangle", x := 0, y := 0, width := 10, height := 10 }

/-- Second element of a horizontally aligned, x-overlapping pair. -/
def ovlB : Element := { type := "rectangle", x := 5, y := 2, width := 10, height := 10 }

/-! Alignment and axis-overlap predicates, as the spec words them. -/

/-- Horizontal alignment test of `_calculate_gap`: `abs(y1 - y2) < min(h1, h2) * 0.5`. -/
def horizontally_aligned (e1 e2 : Element) : Prop :=
  |e1.y - e2.y| < min e1.height e2.height * (1/2)

/-- Vertical alignment test of `_calculate_gap`: `abs(x1 - x2) < min(w1, w2) * 0.5`. -/
def vertically_aligned (e1 e2 : Element) : Prop :=
  |e1.x - e2.x| < min e1.width e2.width * (1/2)

/-- Overlap of the two x-extents (negation of x-disjointness). -/
def x_extents_overlap (e1 e2 : Element) : Prop :=
  ¬(e1.x + e1.width ≤ e2.x) ∧ ¬(e2.x + e2.width ≤ e1.x)

/-- Overlap of the two y-extents (negation of y-disjointness). -/
def y_extents_overlap (e1 e2 : Element) : Prop :=
  ¬(e1.y + e1.height ≤ e2.y) ∧ ¬(e2.y + e2.height ≤ e1.y)

/-! Helper lemmas. -/

/-- Any gap `_calculate_gap` reports has strictly positive distance, because all
four edge comparisons are strict. -/
theorem gap_some_pos (e1 e2 : Element) (d : Dir) (q : ℚ)
    (h : calculate_gap e1 e2 = some (d, q)) : 0 < q := by
  simp only [calculate_gap] at h
  split_ifs at h with h1 h2 h3 h4 <;>
    simp only [Option.some.injEq, Prod.mk.injEq, reduceCtorEq] at h
  · obtain ⟨-, rfl⟩ := h; linarith [h1.2]
  · obtain ⟨-, rfl⟩ := h; linarith [h2.2]
  · obtain ⟨-, rfl⟩ := h; linarith [h3.2]
  · obtain ⟨-, rfl⟩ := h; linarith [h4.2]

/-- Every entry of `spacing_gaps` comes from `_calculate_gap` on some pair. -/
theorem spacing_gaps_pos (elements : List Element) (g : Dir × ℚ)
    (hg : g ∈ spacing_gaps elements) : 0 < g.2 := by
  unfold spacing_gaps at hg
  obtain ⟨p, -, hp⟩ := List.mem_filterMap.mp hg
  exact gap_some_pos p.1 p.2 g.1 g.2 (by rw [hp])


/-! Claim theorems. -/

/-- C4: `_elements_overlap` equals NOT(x1+w1 ≤ x2 OR x2+w2 ≤ x1 OR
y1+h1 ≤ y2 OR y2+h2 ≤ y1); in particular two rectangles sharing exactly a
touching edge (`e1.x + e1.width = e2.x`) are not overlapping. -/
theorem claim_C4_overlap_formula (e1 e2 : Element) :
    (elements_overlap e1 e2 = true ↔
      ¬(e1.x + e1.width ≤ e2.x ∨ e2.x + e2.width ≤ e1.x ∨
        e1.y + e1.height ≤ e2.y ∨ e2.y + e2.height ≤ e1.y)) ∧
    (e1.x + e1.width = e2.x → elements_overlap e1 e2 = false) := by
  constructor
  · simp only [elements_overlap, Bool.not_eq_true', Bool.or_eq_false_iff,
      decide_eq_false_iff_not, not_le, not_or, not_le]
    tauto
  · intro h
    have hle : e1.x + e1.width ≤ e2.x := le_of_eq h
    simp [elements_overlap, hle]

/-- Witness for C4: the touching pair is not flagged as overlapping. -/
theorem claim_C4_witness :
    touchL.x + touchL.width = touchR.x ∧ elements_overlap touchL touchR = false :=
  ⟨by norm_num [touchL, touchR],
   (claim_C4_overlap_formula touchL touchR).2 (by norm_num [touchL, touchR])⟩

/-- C5: `_calculate_gap` returns none when neither alignment test passes, and
also when the elements are aligned on an axis but their extents overlap along
that axis (in particular, horizontally aligned with overlapping x-extents). -/
theorem claim_C5_gap_none (e1 e2 : Element)
    (h : (¬horizontally_aligned e1 e2 ∧ ¬vertically_aligned e1 e2) ∨
         (horizontally_aligned e1 e2 ∧ x_extents_overlap e1 e2) ∨
         (vertically_aligned e1 e2 ∧ y_extents_overlap e1 e2)) :
    calculate_gap e1 e2 = none := by
  simp only [horizontally_aligned, vertically_aligned, x_extents_overlap,
    y_extents_overlap] at h
  have h0y := abs_nonneg (e1.y - e2.y)
  have h0x := abs_nonneg (e1.x - e2.x)
  simp only [calculate_gap]
  rcases h with ⟨hna, hnb⟩ | ⟨ha, hxo⟩ | ⟨hb, hyo⟩
  · split_ifs with h1 h2 h3 h4
    · exact absurd h1.1 hna
    · exact absurd h2.1 hna
    · exact absurd h3.1 hnb
    · exact absurd h4.1 hnb
    · rfl
  · have hy := abs_lt.mp ha
    have hm1 : min e1.height e2.height ≤ e1.height := min_le_left _ _
    have hm2 : min e1.height e2.height ≤ e2.height := min_le_right _ _
    split_ifs with h1 h2 h3 h4
    · exact absurd h1.2.le hxo.1
    · exact absurd h2.2.le hxo.2
    · exfalso; linarith [ha, h3.2, hy.1]
    · exfalso; linarith [ha, h4.2, hy.2]
    · rfl
  · have hx := abs_lt.mp hb
    have hm1 : min e1.width e2.width ≤ e1.width := min_le_left _ _
    have hm2 : min e1.width e2.width ≤ e2.width := min_le_right _ _
    split_ifs with h1 h2 h3 h4
    · exfalso; linarith [hb, h1.2, hx.1]
    · exfalso; linarith [hb, h2.2, hx.2]
    · exact absurd h3.2.le hyo.1
    · exact absurd h4.2.le hyo.2
    · rfl

/-- Witness for C5: a horizontally aligned pair with overlapping x-extents
gets no gap. -/
theorem claim_C5_witness :
    (horizontally_aligned ovlA ovlB ∧ x_extents_overlap ovlA ovlB) ∧
    calculate_gap ovlA ovlB = none :=
  ⟨by constructor <;> norm_num [horizontally_aligned, x_extents_overlap, ovlA, ovlB],
   claim_C5_gap_none ovlA ovlB (Or.inr (Or.inl
     (by constructor <;> norm_num [horizontally_aligned, x_extents_overlap, ovlA, ovlB])))⟩

/-- C7: an element lands in the `small_texts` list of the text-readability
check iff it is a text element of the snapshot whose fontSize, defaulted to
20 when absent, is strictly below 12; in particular a text element with no
explicit fontSize is never counted as small. -/
theorem claim_C7_small_text_iff (elements : List Element) (e : Element) :
    (e ∈ small_texts elements ↔
      e ∈ elements ∧ e.type = "text" ∧ e.fontSize.getD 20 < 12) ∧
    (e.fontSize = none → e ∉ small_texts elements) := by
  have hiff : e ∈ small_texts elements ↔
      e ∈ elements ∧ e.type = "text" ∧ e.fontSize.getD 20 < 12 := by
    simp only [small_texts, List.mem_filter, beq_iff_eq, decide_eq_true_eq]
    tauto
  refine ⟨hiff, fun hnone hmem => ?_⟩
  have h12 := (hiff.mp hmem).2.2
  rw [hnone] at h12
  norm_num [Option.getD] at h12

/-- Witness for C7: a text element with no explicit fontSize is not small. -/
theorem claim_C7_witness :
    textDefault.fontSize = none ∧ textDefault ∉ small_texts [textDefault] :=
  ⟨rfl, (claim_C7_small_text_iff [textDefault] textDefault).2 rfl⟩

/-- C10: every gap `_calculate_gap` reports has strictly positive distance,
so every value entering the spacing-consistency statistics (the `h_gaps` and
`v_gaps` lists) is strictly positive. -/
theorem claim_C10_gap_distances_positive :
    (∀ (e1 e2 : Element) (d : Dir) (q : ℚ),
      calculate_gap e1 e2 = some (d, q) → 0 < q) ∧
    (∀ (elements : List Element) (q : ℚ),
      q ∈ h_gaps elements ∨ q ∈ v_gaps elements → 0 < q) := by
  refine ⟨gap_some_pos, ?_⟩
  rintro elements q (hq | hq)
  · obtain ⟨g, hg, he⟩ := List.mem_filterMap.mp hq
    obtain ⟨gd, gq⟩ := g
    have hpos := spacing_gaps_pos elements (gd, gq) hg
    cases gd with
    | horizontal => simp only [Option.some.injEq] at he; exact he ▸ hpos
    | vertical => simp at he
  · obtain ⟨g, hg, he⟩ := List.mem_filterMap.mp hq
    obtain ⟨gd, gq⟩ := g
    have hpos := spacing_gaps_pos elements (gd, gq) hg
    cases gd with
    | horizontal => simp at he
    | vertical => simp only [Option.some.injEq] at he; exact he ▸ hpos

/-- Witness for C10: the separated pair yields a horizontal gap of 10 > 0. -/
theorem claim_C10_witness :
    calculate_gap gapL gapR = some (Dir.horizontal, 10) ∧ (0 : ℚ) < 10 := by
  have hg : calculate_gap gapL gapR = some (Dir.horizontal, 10) := by
    norm_num [calculate_gap, gapL, gapR]
  exact ⟨hg, claim_C10_gap_distances_positive.1 gapL gapR Dir.horizontal 10 hg⟩


/-- C2: the empty snapshot short-circuits to score 0, grade F, issues
`[emptyDiagram]`, no warnings, a single add-elements suggestion and no
`element_count` / `quality_level` keys, for any incoming instance state
(so none of the six checks contributes anything). -/
theorem claim_C2_empty_report (st : AnalyzerState) :
    analyze st [] =
      { score := 0, grade := "F", issues := [Msg.emptyDiagram], warnings := [],
        suggestions := [Suggestion.addElements], element_count := none,
        quality_level := none } := by
  simp [analyze, analyzeRun]

/-- C8: `analyze` resets the instance accumulators on entry, so the call is
independent of the incoming instance state (in particular, two successive
calls on the same instance return equal reports). -/
theorem claim_C8_state_reset (st1 st2 : AnalyzerState) (metadata : List Element) :
    analyzeRun st1 metadata = analyzeRun st2 metadata ∧
    analyze (analyzeRun st1 metadata).2 metadata = analyze st1 metadata :=
  ⟨rfl, rfl⟩

/-- C1 counterexample: on the empty snapshot the claimed clamp invariant
fails, because the report has score 0 but one issue and no warnings, and
clamp(100 - 10, 0, 100) = 90 ≠ 0. -/
theorem claim_C1_counterexample :
    ¬((analyze initState []).score =
      max 0 (min 100 (100 - 10 * ((analyze initState []).issues.length : Int) -
        5 * ((analyze initState []).warnings.length : Int)))) := by
  simp [analyze, analyzeRun]

/-- C1 amended: for every non-empty snapshot, the report's score equals
clamp(100 - 10*len(issues) - 5*len(warnings), 0, 100) over the lists of that
same report. -/
theorem claim_C1_amended_clamp (st : AnalyzerState) (metadata : List Element)
    (h : metadata ≠ []) :
    (analyze st metadata).score =
      max 0 (min 100 (100 - 10 * ((analyze st metadata).issues.length : Int) -
        5 * ((analyze st metadata).warnings.length : Int))) := by
  simp only [analyze, analyzeRun, if_neg h]
  omega

/-- Witness for the amended C1 at a one-rectangle snapshot. -/
theorem claim_C1_witness :
    ([soloRect] ≠ ([] : List Element)) ∧
    (analyze initState [soloRect]).score =
      max 0 (min 100 (100 - 10 * ((analyze initState [soloRect]).issues.length : Int) -
        5 * ((analyze initState [soloRect]).warnings.length : Int))) :=
  ⟨by simp, claim_C1_amended_clamp initState [soloRect] (by simp)⟩

/-- C3 counterexample: the report for the empty snapshot carries no
`element_count` key at all, refuting the claim for that snapshot. -/
theorem claim_C3_counterexample :
    ¬((analyze initState []).element_count = some ([] : List Element).length) := by
  simp [analyze, analyzeRun]

/-- C3 amended: for every non-empty snapshot the report's `element_count` is
the number of elements and its `quality_level` key is present (holding the
level computed from the score). -/
theorem claim_C3_amended_fields (st : AnalyzerState) (metadata : List Element)
    (h : metadata ≠ []) :
    (analyze st metadata).element_count = some metadata.length ∧
    (analyze st metadata).quality_level =
      some (quality_level (analyze st metadata).score) := by
  simp [analyze, analyzeRun, if_neg h]

/-- Witness for the amended C3 at a one-rectangle snapshot. -/
theorem claim_C3_witness :
    ([soloRect] ≠ ([] : List Element)) ∧
    ((analyze initState [soloRect]).element_count = some 1 ∧
      (analyze initState [soloRect]).quality_level =
        some (quality_level (analyze initState [soloRect]).score)) :=
  ⟨by simp, claim_C3_amended_fields initState [soloRect] (by simp)⟩


/-- C6: `_calculate_variance` returns 0 for fewer than two values and when
the mean is 0 (the division is always guarded), otherwise
sqrt(mean((x-mean)^2))/mean; it is exactly 0 on [100,100,100] and strictly
positive on [50,100,150,200]. -/
theorem claim_C6_coefficient_of_variation :
    (∀ values : List ℚ, values.length < 2 → calculate_variance values = 0) ∧
    (∀ values : List ℚ, values.sum / (values.length : ℚ) = 0 →
      calculate_variance values = 0) ∧
    (∀ values : List ℚ, 2 ≤ values.length →
      values.sum / (values.length : ℚ) ≠ 0 →
      calculate_variance values =
        Real.sqrt (((values.map
            (fun x => (x - values.sum / (values.length : ℚ)) ^ 2)).sum /
          (values.length : ℚ) : ℚ)) /
          ((values.sum / (values.length : ℚ) : ℚ) : ℝ)) ∧
    calculate_variance [100, 100, 100] = 0 ∧
    0 < calculate_variance [50, 100, 150, 200] := by
  refine ⟨?_, ?_, ?_, ?_, ?_⟩
  · intro v h
    simp only [calculate_variance, if_pos h]
  · intro v h
    simp [calculate_variance, h]
  · intro v h1 h2
    simp only [calculate_variance]
    rw [if_neg (by omega), if_neg h2]
  · have hm : ([(100 : ℚ), 100, 100].sum / (([(100 : ℚ), 100, 100].length : ℚ))) = 100 := by
      norm_num
    simp only [calculate_variance]
    rw [if_neg (by norm_num)]
    simp only [hm]
    norm_num [Real.sqrt_zero]
  · simp only [calculate_variance]
    rw [if_neg (by norm_num)]
    have hm : ([(50 : ℚ), 100, 150, 200].sum / (([(50 : ℚ), 100, 150, 200].length : ℚ))) = 125 := by
      norm_num
    simp only [hm]
    rw [if_neg (by norm_num)]
    have hv : (([(50 : ℚ), 100, 150, 200].map (fun x => (x - 125) ^ 2)).sum /
        (([(50 : ℚ), 100, 150, 200].length : ℚ))) = 3125 := by
      norm_num
    rw [hv]
    apply div_pos
    · exact Real.sqrt_pos.mpr (by norm_num)
    · norm_num

/-- Witness for C6 at the singleton list, whose length is below 2. -/
theorem claim_C6_witness :
    ([(5 : ℚ)].length < 2) ∧ calculate_variance [(5 : ℚ)] = 0 :=
  ⟨by norm_num, claim_C6_coefficient_of_variation.1 [(5 : ℚ)] (by norm_num)⟩

/-- C9: on the snapshot of exactly the two overlapping rectangles
(100,100,200,100) and (150,120,200,100), the report's issues contain an
overlapping-elements entry and the score is at most 90 (it is 80: one issue
and two warnings). -/
theorem claim_C9_end_to_end :
    (∃ n, Msg.overlapping n ∈ (analyze initState [rectA, rectB]).issues) ∧
    (analyze initState [rectA, rectB]).score ≤ 90 := by
  have htext : check_text_readability [rectA, rectB] = [] := by
    simp [check_text_readability, small_texts, rectA, rectB]
  have hover : check_overlaps [rectA, rectB] = [Msg.overlapping 1] := by
    simp [check_overlaps, pairsUpper, isShape, rectA, rectB, elements_overlap]
    norm_num
  have harrow : check_arrows [rectA, rectB] = [] := by
    simp [check_arrows, rectA, rectB]
  have halign : check_alignment [rectA, rectB] = [Msg.fewAligned] := by
    simp [check_alignment, count_near_values, pairsUpper, isShape, rectA, rectB]
    norm_num
  have hhier : check_visual_hierarchy [rectA, rectB] = [Msg.similarSize] := by
    simp [check_visual_hierarchy, isShape, rectA, rectB]
    norm_num
  have hgap : calculate_gap rectA rectB = none := by
    norm_num [calculate_gap, rectA, rectB]
  have hshapes : [rectA, rectB].filter isShape = [rectA, rectB] := by
    simp [isShape, rectA, rectB]
  have hsg : spacing_gaps [rectA, rectB] = [] := by
    unfold spacing_gaps
    rw [hshapes]
    simp [pairsUpper, hgap]
  have hh : h_gaps [rectA, rectB] = [] := by
    simp [h_gaps, hsg]
  have hv : v_gaps [rectA, rectB] = [] := by
    simp [v_gaps, hsg]
  have hlen : ([rectA, rectB].filter isShape).length = 2 := by
    rw [hshapes]
    rfl
  have hsp : check_spacing_consistency [rectA, rectB] = [] := by
    simp [check_spacing_consistency, hh, hv, hlen]
  have hrep : analyze initState [rectA, rectB] =
      { score := 80, grade := "B", issues := [Msg.overlapping 1],
        warnings := [Msg.fewAligned, Msg.similarSize],
        suggestions := [Suggestion.alignElements, Suggestion.separateOverlapping,
          Suggestion.useSizeHierarchy],
        element_count := some 2, quality_level := some "Good" } := by
    simp [analyze, analyzeRun, htext, hover, harrow, hsp, halign, hhier,
      generate_suggestions, calculate_grade, quality_level]
  rw [hrep]
  exact ⟨⟨1, by simp⟩, by norm_num⟩

end VisualAnalyzer
